import Mathlib

/-!
Shallow embedding of `ai_lead_generation_agent.py`.

The program is a lead-generation pipeline:
  * `search_for_urls` posts a search request and collects URLs from the JSON body;
  * `extract_user_info_from_urls` loops over URLs, calling an extraction
    collaborator and keeping the responses that report success and completion;
  * `format_user_info_to_flattened_json` flattens the results into rows;
  * `save_to_csv` renders the rows as a pandas CSV file;
  * `write_to_google_sheets` runs an agent and scans its reply for a sheet link.

External collaborators (the HTTP POST, the Firecrawl extraction call, the
agent run) are parameters of type `... → Except PyErr ...`: an `Except.error`
models the Python call raising an exception, an `Except.ok` models a returned
value.  Python dictionaries with possibly-missing keys are modelled as
structures of `Option` fields, with `Option.getD` standing for `dict.get`
with a default.  `Except.bind` makes a raised exception propagate, exactly as
an uncaught Python exception does.
-/

namespace LeadGen

/-- An exception raised by a Python call (requests, json decoding, dict
indexing, or the agent run).  Which constructor is used only records where the
exception came from; the code under study never inspects it. -/
inductive PyErr
  | requestError
  | jsonError
  | keyError
  | runError
deriving DecidableEq, Repr

/-- Python truthiness of a possibly-missing boolean field:
`None` and `False` are falsy, `True` is truthy. -/
def truthy : Option Bool → Bool
  | some b => b
  | none => false

/-- A JSON scalar as it can appear in an unvalidated extraction payload.  The
extraction responses are used as raw dictionaries (the pydantic schema is only
sent to the collaborator, never used to validate locally), so a field such as
`upvotes` can hold an integer or a string. -/
inductive JVal
  | int : Int → JVal
  | str : String → JVal
deriving DecidableEq, Repr

/-! ## search_for_urls (lines 27-36) -/

/-- One element of the search response's `data` list; `result["url"]` raises
`KeyError` when the key is absent, hence the `Option`. -/
structure SearchItem where
  url : Option String
deriving DecidableEq, Repr

/-- The parsed JSON body of the search response: `.get("success")` and
`.get("data", [])`. -/
structure SearchBody where
  success : Option Bool
  data : Option (List SearchItem)
deriving DecidableEq, Repr

/-- The `requests` response: a status code, and a body whose parsing
(`response.json()`) can itself raise. -/
structure HttpResponse where
  status_code : Nat
  json : Except PyErr SearchBody
deriving Repr

/-- The JSON payload built by `search_for_urls` and posted to the search
endpoint (line 31). -/
structure SearchPayload where
  query : String
  limit : Nat
  lang : String
  location : String
  timeout : Nat
deriving DecidableEq, Repr

/-- Line 35's list comprehension body: `result["url"]`, raising `KeyError`
when the key is missing. -/
def itemUrl (item : SearchItem) : Except PyErr String :=
  match item.url with
  | some u => Except.ok u
  | none => Except.error PyErr.keyError

/-- `search_for_urls` (lines 27-36).  `post` is `requests.post` applied to the
fixed endpoint and headers; it receives the payload the function builds.
The `and` on line 34 short-circuits: `response.json()` is only parsed when the
status code is 200.  On a 200 status with a truthy `success` flag the URLs are
collected left to right, raising at the first item without a `"url"` key;
otherwise the function returns `[]`. -/
def search_for_urls (company_description : String) (num_links : Nat)
    (post : SearchPayload → Except PyErr HttpResponse) :
    Except PyErr (List String) := do
  let query := "Quora discussions about " ++ company_description
  let payload : SearchPayload :=
    { query := query, limit := num_links, lang := "en",
      location := "United States", timeout := 60000 }
  let response ← post payload
  if response.status_code = 200 then
    let body ← response.json
    if truthy body.success then
      (body.data.getD []).mapM itemUrl
    else
      return []
  else
    return []

/-! ## extract_user_info_from_urls (lines 39-52) -/

/-- One interaction record of the extraction payload, as the raw dictionary
the collaborator returned: every key can be missing, and `upvotes` is an
arbitrary JSON scalar. -/
structure Interaction where
  username : Option String
  bio : Option String
  post_type : Option String
  timestamp : Option String
  upvotes : Option JVal
  links : Option (List String)
deriving DecidableEq, Repr

/-- The `data` dictionary of an extraction response:
`.get('interactions', [])`. -/
structure ExtractData where
  interactions : Option (List Interaction)
deriving DecidableEq, Repr

/-- An extraction response as a raw dictionary: `.get('success')`,
`.get('status')`, `.get('data', {})`. -/
structure ExtractResp where
  success : Option Bool
  status : Option String
  data : Option ExtractData
deriving DecidableEq, Repr

/-- Line 50's `response.get('data', {}).get('interactions', [])`. -/
def interactionsOf (r : ExtractResp) : List Interaction :=
  ((r.data.getD { interactions := none }).interactions).getD []

/-- Line 49's condition:
`response.get('success') and response.get('status') == 'completed'`. -/
def accepted (r : ExtractResp) : Bool :=
  truthy r.success && r.status == some "completed"

/-- One element of the `extracted_data` list built on line 50:
`{"website_url": url, "user_info": ...}`. -/
structure SourceResult where
  website_url : String
  user_info : List Interaction
deriving DecidableEq, Repr

/-- `extract_user_info_from_urls` (lines 39-52).  `fetch` is
`firecrawl_app.extract` applied to the fixed prompt and schema.  The loop
calls `fetch` on each URL in order and appends a `SourceResult` exactly when
the response is `accepted`; the call is not wrapped in any `try`, so a raised
exception propagates out of the loop. -/
def extract_user_info_from_urls (fetch : String → Except PyErr ExtractResp) :
    List String → Except PyErr (List SourceResult)
  | [] => Except.ok []
  | url :: rest => do
    let response ← fetch url
    let tail ← extract_user_info_from_urls fetch rest
    if accepted response then
      return { website_url := url, user_info := interactionsOf response } :: tail
    else
      return tail

/-! ## format_user_info_to_flattened_json (lines 55-69) -/

/-- One flattened dictionary appended on lines 60-68.  Field names follow the
dictionary keys (`url` stands for `"Website URL"`). -/
structure FlatRow where
  url : String
  username : String
  bio : String
  post_type : String
  timestamp : String
  upvotes : JVal
  links : String
deriving DecidableEq, Repr

/-- The dictionary literal of lines 60-68: each `interaction.get(key, default)`
becomes `Option.getD`, and `", ".join(links)` becomes `String.intercalate`. -/
def flat_row (website_url : String) (interaction : Interaction) : FlatRow :=
  { url := website_url
    username := interaction.username.getD ""
    bio := interaction.bio.getD ""
    post_type := interaction.post_type.getD ""
    timestamp := interaction.timestamp.getD ""
    upvotes := interaction.upvotes.getD (JVal.int 0)
    links := String.intercalate ", " (interaction.links.getD []) }

/-- `format_user_info_to_flattened_json` (lines 55-69): the nested loop
appends one row per interaction of each result, outer loop in input order,
inner loop in record order. -/
def format_user_info_to_flattened_json : List SourceResult → List FlatRow
  | [] => []
  | d :: rest =>
    d.user_info.map (flat_row d.website_url)
      ++ format_user_info_to_flattened_json rest

/-! ## save_to_csv (lines 72-76)

`save_to_csv` builds `pd.DataFrame(flattened_data)` and writes it with
`df.to_csv(csv_filename, index=False, encoding='utf-8')`.  We model the file
CONTENT the call writes.  pandas infers the columns of a DataFrame built from
a list of dictionaries from the keys in order of first appearance, so a
non-empty input yields the seven keys of lines 61-67 in order, while
`pd.DataFrame([])` has no columns at all and `to_csv(index=False)` then
writes a single empty header line (the file is just a newline).  `to_csv`
joins each line with commas, quoting a field that contains a comma, a quote
or a newline (doubling inner quotes), and terminates every line with a
newline. -/

/-- The column keys of lines 61-67, in insertion order. -/
def csv_header : List String :=
  ["Website URL", "Username", "Bio", "Post Type", "Timestamp", "Upvotes", "Links"]

/-- Columns pandas infers for `pd.DataFrame(flattened_data)`: the dictionary
keys for a non-empty list, none for `pd.DataFrame([])`. -/
def df_columns (rows : List FlatRow) : List String :=
  match rows with
  | [] => []
  | _ :: _ => csv_header

/-- How a cell value is rendered: integers print as decimal, strings as-is. -/
def jvalCell : JVal → String
  | JVal.int n => toString n
  | JVal.str s => s

/-- pandas' minimal CSV quoting: a field is quoted when it contains a comma,
a double quote or a newline. -/
def needsQuoting (s : String) : Bool :=
  s.data.contains ',' || s.data.contains '"' || s.data.contains '\n'

/-- Double every double quote, for quoted fields. -/
def escapeQuotes : List Char → List Char
  | [] => []
  | c :: cs =>
    if c = '"' then '"' :: '"' :: escapeQuotes cs else c :: escapeQuotes cs

/-- Render one CSV field, doubling inner quotes when quoting is needed. -/
def csvField (s : String) : String :=
  if needsQuoting s then "\"" ++ String.mk (escapeQuotes s.data) ++ "\"" else s

/-- Render one CSV line from its cells. -/
def csvLine (cells : List String) : String :=
  String.intercalate "," (cells.map csvField)

/-- The cell values of one data row, in column order. -/
def rowCells (r : FlatRow) : List String :=
  [r.url, r.username, r.bio, r.post_type, r.timestamp, jvalCell r.upvotes, r.links]

/-- The content of the file `save_to_csv` writes: the inferred header line
followed by one line per row, each line newline-terminated. -/
def save_to_csv (flattened_data : List FlatRow) : String :=
  String.intercalate "\n"
      (csvLine (df_columns flattened_data)
        :: flattened_data.map (fun r => csvLine (rowCells r)))
    ++ "\n"

/-! ## write_to_google_sheets (lines 79-98) -/

/-- The marker searched for on line 94. -/
def sheets_marker : String := "https://docs.google.com/spreadsheets/d/"

/-- The agent's reply object; only its `content` text is used. -/
structure AgentResponse where
  content : String
deriving DecidableEq, Repr

/-- Python's `str.strip()`: drop whitespace from both ends. -/
def pyStrip (s : String) : String :=
  String.mk
    (((s.data.dropWhile Char.isWhitespace).reverse.dropWhile
        Char.isWhitespace).reverse)

/-- `write_to_google_sheets` (lines 79-98).  `run` is
`google_sheets_agent.run(message)`: the whole call is inside
`try ... except Exception: pass`, so a raised exception yields `None`.  When
the call returns, line 94's `in` is substring containment; on a hit the whole
text is returned stripped, otherwise `None`. -/
def write_to_google_sheets (run : Except PyErr AgentResponse) : Option String :=
  match run with
  | Except.error _ => none
  | Except.ok response =>
    if sheets_marker.data <:+: response.content.data then
      some (pyStrip response.content)
    else
      none

/-! ## Concrete inputs used to evaluate the functions -/

/-- An extraction response indicating full success with no data payload. -/
def okEmptyResp : ExtractResp :=
  { success := some true, status := some "completed", data := none }

/-- An extraction collaborator that raises on `"u1"` and answers every other
URL with a successful response. -/
def raisingFetch : String → Except PyErr ExtractResp :=
  fun u =>
    if u = "u1" then Except.error PyErr.requestError else Except.ok okEmptyResp

/-- A 200 search response whose parsed body repeats the same URL twice. -/
def dupResp : HttpResponse :=
  { status_code := 200,
    json := Except.ok
      { success := some true,
        data := some [{ url := some "https://a" }, { url := some "https://a" }] } }

/-- A 200 search response whose body cannot be parsed as JSON. -/
def unparsableResp : HttpResponse :=
  { status_code := 200, json := Except.error PyErr.jsonError }

/-- A 200 search response whose only data item lacks the `"url"` key. -/
def missingUrlResp : HttpResponse :=
  { status_code := 200,
    json := Except.ok { success := some true, data := some [{ url := none }] } }

/-- A 404 search response. -/
def notFoundResp : HttpResponse :=
  { status_code := 404, json := Except.error PyErr.jsonError }

/-- A 200 search response whose body reports `success: false`. -/
def rejectedResp : HttpResponse :=
  { status_code := 200,
    json := Except.ok
      { success := some false, data := some [{ url := some "https://a" }] } }

/-- An interaction dictionary carrying a non-numeric `upvotes` value and no
other keys. -/
def badInteraction : Interaction :=
  { username := none, bio := none, post_type := none, timestamp := none,
    upvotes := some (JVal.str "N/A"), links := none }

/-- A fully populated interaction dictionary. -/
def niceInteraction : Interaction :=
  { username := some "n", bio := some "b", post_type := some "answer",
    timestamp := some "t", upvotes := some (JVal.int 5),
    links := some ["a", "b"] }

/-- A 200 search response echoing back a given url list, every item carrying
its `"url"` key. -/
def echoResp (urls : List String) : HttpResponse :=
  { status_code := 200,
    json := Except.ok
      { success := some true,
        data := some (urls.map fun u => { url := some u }) } }

/-- A successful, completed extraction response whose payload holds exactly
`niceInteraction`. -/
def fullResp : ExtractResp :=
  { success := some true, status := some "completed",
    data := some { interactions := some [niceInteraction] } }

/-- The source result the loop builds from `fullResp` at URL `"u1"`. -/
def c8Result : SourceResult :=
  { website_url := "u1", user_info := [niceInteraction] }

/-- A source result whose only record is `badInteraction`. -/
def badResult : SourceResult :=
  { website_url := "u", user_info := [badInteraction] }

/-- A source result whose only record is `niceInteraction`. -/
def niceResult : SourceResult :=
  { website_url := "u", user_info := [niceInteraction] }

/-! ## Helper lemmas -/

/-- When every extraction call returns a response (none raises), the loop
returns exactly the accepted URLs, in order, paired with their interaction
lists. -/
theorem extract_ok_eq (g : String → ExtractResp) (urls : List String) :
    extract_user_info_from_urls (fun u => Except.ok (g u)) urls
      = Except.ok ((urls.filter fun u => accepted (g u)).map
          fun u => { website_url := u, user_info := interactionsOf (g u) }) := by
  induction urls with
  | nil => rfl
  | cons url rest ih =>
    simp only [extract_user_info_from_urls, List.filter_cons, ih, bind, Except.bind]
    by_cases h : accepted (g url) = true
    · simp [h, pure, Except.pure]
    · simp [h, pure, Except.pure]

/-- The nested flattening loop is a `flatMap` of per-result row lists. -/
theorem format_eq_flatMap (results : List SourceResult) :
    format_user_info_to_flattened_json results
      = results.flatMap fun d => d.user_info.map (flat_row d.website_url) := by
  induction results with
  | nil => rfl
  | cons d rest ih => simp [format_user_info_to_flattened_json, ih]

/-- Membership in the flattened output, in terms of the input results. -/
theorem mem_format {row : FlatRow} {results : List SourceResult} :
    row ∈ format_user_info_to_flattened_json results
      ↔ ∃ d ∈ results, ∃ i ∈ d.user_info, row = flat_row d.website_url i := by
  rw [format_eq_flatMap]
  simp only [List.mem_flatMap, List.mem_map]
  constructor
  · rintro ⟨d, hd, i, hi, hrow⟩
    exact ⟨d, hd, i, hi, hrow.symm⟩
  · rintro ⟨d, hd, i, hi, hrow⟩
    exact ⟨d, hd, i, hi, hrow.symm⟩

/-- The flattened output has one row per input interaction record. -/
theorem length_format (results : List SourceResult) :
    (format_user_info_to_flattened_json results).length
      = (results.map fun d => d.user_info.length).sum := by
  induction results with
  | nil => rfl
  | cons d rest ih =>
    simp [format_user_info_to_flattened_json, ih]

/-- Collecting `result["url"]` over items that all carry a `url` key succeeds
and returns the urls in order. -/
theorem mapM_itemUrl (urls : List String) :
    ((urls.map fun u => ({ url := some u } : SearchItem)).mapM itemUrl)
      = Except.ok urls := by
  induction urls with
  | nil => rfl
  | cons u rest ih =>
    rw [List.map_cons, List.mapM_cons, ih]
    rfl

/-- `String.intercalate.go` peels one separator per element. -/
theorem intercalate_go_eq (s : String)
    (acc b : String) (l : List String) :
    String.intercalate.go acc s (b :: l)
      = acc ++ s ++ String.intercalate.go b s l := by
  induction l generalizing acc b with
  | nil => rfl
  | cons c cs ih =>
    rw [String.intercalate.go, ih, ih b c]
    simp [String.append_assoc]

/-- `String.intercalate` over a cons with a non-empty tail. -/
theorem intercalate_cons (s a : String) (l : List String) (h : l ≠ []) :
    String.intercalate s (a :: l) = a ++ s ++ String.intercalate s l := by
  cases l with
  | nil => exact absurd rfl h
  | cons b bs =>
    rw [String.intercalate, String.intercalate, intercalate_go_eq]

/-! ## Claims -/

/-- C1, counterexample.  The spec claims a failure of a single URL's
extraction call never raises past the batch loop.  In the code the call is
not guarded: with a collaborator that raises on the first URL and would
succeed on the second, the whole batch raises and the second URL is never
reached, so no (shorter) result sequence is returned at all. -/
theorem c1_counterexample :
    extract_user_info_from_urls raisingFetch ["u1", "u2"]
      = Except.error PyErr.requestError := by
  rfl

/-- C1, amended.  As long as every extraction call returns a response
(however unsuccessful), the batch runs to completion: the loop returns a
result sequence, and a rejected response only makes it shorter.  An exception
raised by the call itself, however, propagates out of the loop
(`c1_counterexample`). -/
theorem c1_batch_survives_failed_responses
    (g : String → ExtractResp) (urls : List String) :
    ∃ results,
      extract_user_info_from_urls (fun u => Except.ok (g u)) urls
          = Except.ok results
        ∧ results.length ≤ urls.length := by
  refine ⟨_, extract_ok_eq g urls, ?_⟩
  rw [List.length_map]
  exact List.length_filter_le _ urls

/-- C2.  With every response delivered, the batch keeps exactly the URLs
whose response satisfies line 49's condition (`accepted`: a truthy `success`
flag and status `"completed"`), in order, each contributing one
`SourceResult` with its interaction list; every other response contributes
nothing while the loop continues. -/
theorem c2_entry_iff_success_and_completed
    (g : String → ExtractResp) (urls : List String) :
    extract_user_info_from_urls (fun u => Except.ok (g u)) urls
      = Except.ok ((urls.filter fun u => accepted (g u)).map
          fun u => { website_url := u, user_info := interactionsOf (g u) }) :=
  extract_ok_eq g urls

/-- C3, counterexample.  The spec claims the search returns an empty sequence
on a transport error or a malformed response body.  In the code neither case
is guarded: a raising `requests.post`, a body that fails to parse as JSON,
and a data item without a `"url"` key all raise out of `search_for_urls`
instead of yielding `[]`. -/
theorem c3_counterexample :
    search_for_urls "acme" 3 (fun _ => Except.error PyErr.requestError)
        = Except.error PyErr.requestError
      ∧ search_for_urls "acme" 3 (fun _ => Except.ok unparsableResp)
        = Except.error PyErr.jsonError
      ∧ search_for_urls "acme" 3 (fun _ => Except.ok missingUrlResp)
        = Except.error PyErr.keyError :=
  ⟨rfl, rfl, rfl⟩

/-- C3, amended.  For a response that arrives and parses, rejection is
recoverable: a non-200 status code, or a parsed body whose success flag is
not truthy, yields `Except.ok []` (the "no leads found" outcome).  A
transport error, an unparseable body, or a malformed data item instead
raises (`c3_counterexample`). -/
theorem c3_empty_on_rejected_response (cd : String) (n : Nat)
    (r : HttpResponse) :
    (r.status_code ≠ 200 →
      search_for_urls cd n (fun _ => Except.ok r) = Except.ok [])
    ∧ (∀ b, r.json = Except.ok b → truthy b.success = false →
        search_for_urls cd n (fun _ => Except.ok r) = Except.ok []) := by
  constructor
  · intro h
    simp [search_for_urls, bind, Except.bind, h, pure, Except.pure]
  · intro b hb hs
    by_cases hst : r.status_code = 200 <;>
      simp [search_for_urls, bind, Except.bind, hst, hb, hs, pure, Except.pure]

/-- C3, witness for the amended statement: a 404 response and a
`success: false` response each yield the empty url list. -/
theorem c3_witness :
    search_for_urls "acme" 3 (fun _ => Except.ok notFoundResp) = Except.ok []
      ∧ search_for_urls "acme" 3 (fun _ => Except.ok rejectedResp)
        = Except.ok [] :=
  ⟨(c3_empty_on_rejected_response "acme" 3 notFoundResp).1 (by decide),
    (c3_empty_on_rejected_response "acme" 3 rejectedResp).2
      { success := some false, data := some [{ url := some "https://a" }] }
      rfl (by decide)⟩

/-- C4, counterexample.  The spec claims a non-numeric `upvotes` value is
coerced to 0.  The flattener only defaults a MISSING field: a record whose
`upvotes` is the string `"N/A"` produces a row whose upvotes value is that
string, not a non-negative integer. -/
theorem c4_counterexample :
    (format_user_info_to_flattened_json [badResult]).map (fun row => row.upvotes)
        = [JVal.str "N/A"]
      ∧ ¬ ∃ n : Int, 0 ≤ n
          ∧ (format_user_info_to_flattened_json [badResult]).map
              (fun row => row.upvotes) = [JVal.int n] := by
  constructor
  · rfl
  · rintro ⟨n, -, h⟩
    have h' : [JVal.str "N/A"] = [JVal.int n] := h
    simp at h'

/-- C4, amended.  Every flattened row takes its upvotes value from the source
record via `Option.getD`: a missing field becomes the integer 0, and a
present value — of whatever type or sign — passes through unchanged. -/
theorem c4_upvotes_default_and_passthrough
    (results : List SourceResult) (row : FlatRow)
    (h : row ∈ format_user_info_to_flattened_json results) :
    ∃ d ∈ results, ∃ i ∈ d.user_info,
      row.upvotes = i.upvotes.getD (JVal.int 0)
        ∧ (i.upvotes = none → row.upvotes = JVal.int 0)
        ∧ ∀ v, i.upvotes = some v → row.upvotes = v := by
  obtain ⟨d, hd, i, hi, hrow⟩ := mem_format.mp h
  refine ⟨d, hd, i, hi, by rw [hrow]; rfl, ?_, ?_⟩
  · intro h0
    rw [hrow]
    simp [flat_row, h0]
  · intro v hv
    rw [hrow]
    simp [flat_row, hv]

/-- C4, witness for the amended statement at a concrete flattened row. -/
theorem c4_witness :
    ∃ d ∈ [badResult], ∃ i ∈ d.user_info,
      (flat_row "u" badInteraction).upvotes = i.upvotes.getD (JVal.int 0)
        ∧ (i.upvotes = none → (flat_row "u" badInteraction).upvotes = JVal.int 0)
        ∧ ∀ v, i.upvotes = some v → (flat_row "u" badInteraction).upvotes = v :=
  c4_upvotes_default_and_passthrough [badResult] (flat_row "u" badInteraction)
    (by decide)

/-- C5.  The flattener emits exactly one row per input interaction record
(the row count is the sum of the record counts), and every URL that appears
in a row comes from a result with a non-empty record list — a result with no
records contributes no row, placeholder or otherwise. -/
theorem c5_row_count_and_no_placeholder (results : List SourceResult) :
    (format_user_info_to_flattened_json results).length
        = (results.map fun d => d.user_info.length).sum
      ∧ ∀ row ∈ format_user_info_to_flattened_json results,
          ∃ d ∈ results, d.website_url = row.url ∧ d.user_info ≠ [] := by
  refine ⟨length_format results, ?_⟩
  intro row h
  obtain ⟨d, hd, i, hi, hrow⟩ := mem_format.mp h
  refine ⟨d, hd, ?_, List.ne_nil_of_mem hi⟩
  rw [hrow]
  rfl

/-- C5, witness at a one-result, one-record input. -/
theorem c5_witness :
    (format_user_info_to_flattened_json [niceResult]).length
        = ([niceResult].map fun d => d.user_info.length).sum
      ∧ ∃ d ∈ [niceResult],
          d.website_url = (flat_row "u" niceInteraction).url
            ∧ d.user_info ≠ [] :=
  ⟨(c5_row_count_and_no_placeholder [niceResult]).1,
    (c5_row_count_and_no_placeholder [niceResult]).2
      (flat_row "u" niceInteraction) (by decide)⟩

/-- C6.  Flattening coerces missing text fields to the empty string and a
missing (or empty) link list to the empty string, joins present links with
`", "` (so `["a", "b"]` becomes `"a, b"`), and is applied to every record the
flattener emits. -/
theorem c6_field_coercion (url : String) (i : Interaction)
    (results : List SourceResult) :
    (i.username = none → (flat_row url i).username = "")
      ∧ (i.bio = none → (flat_row url i).bio = "")
      ∧ (i.post_type = none → (flat_row url i).post_type = "")
      ∧ (i.timestamp = none → (flat_row url i).timestamp = "")
      ∧ (i.links = none → (flat_row url i).links = "")
      ∧ (i.links = some [] → (flat_row url i).links = "")
      ∧ (∀ a b : String, i.links = some [a, b] →
          (flat_row url i).links = a ++ ", " ++ b)
      ∧ format_user_info_to_flattened_json results
          = results.flatMap fun d => d.user_info.map (flat_row d.website_url) := by
  refine ⟨fun h => ?_, fun h => ?_, fun h => ?_, fun h => ?_, fun h => ?_,
    fun h => ?_, fun a b h => ?_, format_eq_flatMap results⟩ <;>
    simp [flat_row, h] <;>
    rfl

/-- C6, witness: the defaults and the join at concrete records. -/
theorem c6_witness :
    (flat_row "u" badInteraction).username = ""
      ∧ (flat_row "u" badInteraction).links = ""
      ∧ (flat_row "u" niceInteraction).links = "a" ++ ", " ++ "b"
      ∧ format_user_info_to_flattened_json [niceResult]
          = [niceResult].flatMap fun d => d.user_info.map (flat_row d.website_url) :=
  ⟨(c6_field_coercion "u" badInteraction [niceResult]).1 rfl,
    (c6_field_coercion "u" badInteraction [niceResult]).2.2.2.2.1 rfl,
    (c6_field_coercion "u" niceInteraction [niceResult]).2.2.2.2.2.2.1 "a" "b" rfl,
    (c6_field_coercion "u" niceInteraction [niceResult]).2.2.2.2.2.2.2⟩

/-- C7, counterexample.  The spec claims the returned url list is bounded by
the requested limit and pairwise distinct.  The code passes the limit only in
the request payload and never truncates or deduplicates the response: a
collaborator answering a limit-1 request with the same URL twice makes
`search_for_urls` return both copies. -/
theorem c7_counterexample :
    search_for_urls "x" 1 (fun _ => Except.ok dupResp)
        = Except.ok ["https://a", "https://a"]
      ∧ ¬ (["https://a", "https://a"].length ≤ 1)
      ∧ ¬ List.Nodup ["https://a", "https://a"] :=
  ⟨rfl, by decide, by decide⟩

/-- C7, amended.  On a successful response, `search_for_urls` returns exactly
the collaborator's urls in the collaborator's order — whatever their number
(no client-side truncation to `num_links`) and whether or not they repeat. -/
theorem c7_exact_collaborator_order (cd : String) (n : Nat)
    (urls : List String) :
    search_for_urls cd n (fun _ => Except.ok (echoResp urls))
      = Except.ok urls := by
  simp only [search_for_urls, echoResp, bind, Except.bind, truthy,
    Option.getD_some, if_true]
  simpa using mapM_itemUrl urls

/-- C8.  When every extraction call returns a response, every row the
pipeline flattens carries a URL from the discoverer's list, and the rows are
exactly the accepted URLs in discoverer order, each expanded into its
response's interaction records in order. -/
theorem c8_provenance_and_order (g : String → ExtractResp)
    (urls : List String) (results : List SourceResult)
    (h : extract_user_info_from_urls (fun u => Except.ok (g u)) urls
      = Except.ok results) :
    (∀ row ∈ format_user_info_to_flattened_json results, row.url ∈ urls)
      ∧ format_user_info_to_flattened_json results
          = (urls.filter fun u => accepted (g u)).flatMap
              fun u => (interactionsOf (g u)).map (flat_row u) := by
  rw [extract_ok_eq] at h
  injection h with h
  subst h
  have hfmt : format_user_info_to_flattened_json
        ((urls.filter fun u => accepted (g u)).map
          fun u => { website_url := u, user_info := interactionsOf (g u) })
      = (urls.filter fun u => accepted (g u)).flatMap
          fun u => (interactionsOf (g u)).map (flat_row u) := by
    rw [format_eq_flatMap]
    induction urls.filter fun u => accepted (g u) with
    | nil => rfl
    | cons u rest ih => simp [ih]
  refine ⟨?_, hfmt⟩
  intro row hrow
  rw [hfmt] at hrow
  rw [List.mem_flatMap] at hrow
  obtain ⟨u, hu, hrowu⟩ := hrow
  rw [List.mem_map] at hrowu
  obtain ⟨i, -, hrowi⟩ := hrowu
  rw [← hrowi]
  exact List.mem_of_mem_filter hu

/-- C8, witness at a one-URL pipeline whose extraction succeeds. -/
theorem c8_witness :
    (∀ row ∈ format_user_info_to_flattened_json [c8Result], row.url ∈ ["u1"])
      ∧ format_user_info_to_flattened_json [c8Result]
          = (["u1"].filter fun u => accepted ((fun _ => fullResp) u)).flatMap
              fun u => (interactionsOf ((fun _ => fullResp) u)).map
                (flat_row u) :=
  c8_provenance_and_order (fun _ => fullResp) ["u1"] [c8Result] (by rfl)

/-- C9, counterexample.  The spec claims the header line is present even with
zero data rows.  `pd.DataFrame([])` has no columns, so `save_to_csv []`
writes a single empty line: the file is `"\n"`, whose first line is empty
rather than the fixed header. -/
theorem c9_counterexample :
    save_to_csv [] = "\n"
      ∧ csvLine (df_columns []) = ""
      ∧ csvLine csv_header
          = "Website URL,Username,Bio,Post Type,Timestamp,Upvotes,Links"
      ∧ save_to_csv []
          ≠ "Website URL,Username,Bio,Post Type,Timestamp,Upvotes,Links" ++ "\n" :=
  ⟨rfl, rfl, by decide, by decide⟩

/-- C9, amended.  For every NON-EMPTY row list the file starts with the fixed
header line and continues with one line per row in order; for the empty list
pandas infers no columns and the file is a single empty line without the
header. -/
theorem c9_header_iff_nonempty (rows : List FlatRow) (h : rows ≠ []) :
    save_to_csv rows
        = "Website URL,Username,Bio,Post Type,Timestamp,Upvotes,Links" ++ "\n"
          ++ (String.intercalate "\n" (rows.map fun r => csvLine (rowCells r))
            ++ "\n")
      ∧ save_to_csv [] = "\n" := by
  refine ⟨?_, rfl⟩
  cases rows with
  | nil => exact absurd rfl h
  | cons r rs =>
    rw [save_to_csv,
      show df_columns (r :: rs) = csv_header from rfl, List.map_cons,
      intercalate_cons _ _ _ (List.cons_ne_nil _ _),
      show csvLine csv_header
        = "Website URL,Username,Bio,Post Type,Timestamp,Upvotes,Links"
        from by decide]
    simp [String.append_assoc]

/-- C9, witness for the amended statement at a one-row input. -/
theorem c9_witness :
    save_to_csv [flat_row "u" niceInteraction]
        = "Website URL,Username,Bio,Post Type,Timestamp,Upvotes,Links" ++ "\n"
          ++ (String.intercalate "\n"
              ([flat_row "u" niceInteraction].map fun r => csvLine (rowCells r))
            ++ "\n")
      ∧ save_to_csv [] = "\n" :=
  c9_header_iff_nonempty [flat_row "u" niceInteraction] (by decide)

/-- C10.  A returned reply whose text contains the spreadsheet locator makes
`write_to_google_sheets` return the whole reply text stripped — arbitrary
prose may surround the locator; a reply without the locator, or a raising
agent call, yields `none`. -/
theorem c10_sheets_passthrough :
    (∀ p q : String,
        write_to_google_sheets (Except.ok { content := p ++ sheets_marker ++ q })
          = some (pyStrip (p ++ sheets_marker ++ q)))
      ∧ (∀ s : String, ¬ sheets_marker.data <:+: s.data →
          write_to_google_sheets (Except.ok { content := s }) = none)
      ∧ ∀ e, write_to_google_sheets (Except.error e) = none := by
  refine ⟨?_, ?_, fun e => rfl⟩
  · intro p q
    have hinf : sheets_marker.data <:+: (p ++ sheets_marker ++ q).data :=
      ⟨p.data, q.data, by simp [String.data_append]⟩
    simp [write_to_google_sheets, hinf]
  · intro s hs
    simp [write_to_google_sheets, hs]

/-- C10, witness: a reply with prose around the link, a reply without a link,
and a raising call. -/
theorem c10_witness :
    write_to_google_sheets
        (Except.ok { content := " sheet: " ++ sheets_marker ++ "abc " })
      = some (pyStrip (" sheet: " ++ sheets_marker ++ "abc "))
      ∧ write_to_google_sheets (Except.ok { content := "no link here" }) = none
      ∧ write_to_google_sheets (Except.error PyErr.runError) = none :=
  ⟨c10_sheets_passthrough.1 " sheet: " "abc ",
    c10_sheets_passthrough.2.1 "no link here" (by decide),
    c10_sheets_passthrough.2.2 PyErr.runError⟩

end LeadGen
